import Mathlib

set_option autoImplicit false

/-
Verification of the Locator Cache and Action Resolution Engine
(LocatorRepository / DirectLLMAutomationAgent in
src/Working-AI-Powered_Automation.py, with the executor variant from
src/test_new.py).

The embedding below translates the Python engine into pure Lean
functions.  Timestamps are passed explicitly as natural numbers, the
browser driver is a record of fallible capabilities, the intent oracle
is an `Except`-valued reply (`error` models the oracle raising), and the
persisted-file writes performed by `_save_repository` are counted in the
`saves` field of the store.
-/

namespace Engine

/-- The single-quote character (code point 39), as a one-character
string.  It appears in the reconstructed fill values and in several
result strings of the executor. -/
def squote : String := String.singleton (Char.ofNat 39)

/-- ASCII lower-casing of one character, as performed by the Python
`str.lower()` on the action kinds that occur in this engine. -/
def lowerChar (c : Char) : Char :=
  if c.toNat ≥ 65 ∧ c.toNat ≤ 90 then Char.ofNat (c.toNat + 32) else c

/-- Lower-case a whole string. -/
def lowerStr (s : String) : String := String.mk (s.data.map lowerChar)

/-- Whitespace test used by the field trimming (`str.strip()`). -/
def isSpaceChar (c : Char) : Bool :=
  c.toNat = 32 || c.toNat = 9 || c.toNat = 10 || c.toNat = 13

/-- Drop leading whitespace characters. -/
def dropLead : List Char → List Char
  | [] => []
  | c :: rest => if isSpaceChar c then dropLead rest else c :: rest

/-- Python `str.strip()`: remove whitespace from both ends. -/
def stripStr (s : String) : String :=
  String.mk ((dropLead (dropLead s.data).reverse).reverse)

/-- Split a character list at every occurrence of the separator
character; mirrors the Python `str.split` with the one-character
separators used by the engine (the pipe and the single quote). -/
def splitOnChar (sep : Char) : List Char → List (List Char)
  | [] => [[]]
  | c :: rest =>
      if c = sep then [] :: splitOnChar sep rest
      else
        match splitOnChar sep rest with
        | [] => [[c]]
        | h :: t => (c :: h) :: t

/-- Does the first list occur as a leading segment of the second? -/
def startsWithL : List Char → List Char → Bool
  | [], _ => true
  | _ :: _, [] => false
  | a :: as, b :: bs => a = b && startsWithL as bs

/-- Substring containment over character lists (the Python `in`
operator on strings). -/
def containsL (needle : List Char) : List Char → Bool
  | [] => needle.isEmpty
  | c :: rest => startsWithL needle (c :: rest) || containsL needle rest

/-- Substring containment for strings. -/
def strContains (hay needle : String) : Bool := containsL needle.data hay.data

/-- One discovered UI element, as stored by `LocatorRepository`
(the value dictionary under `repository[page][object]`).  A fresh `put`
writes no `last_used_at` key, hence the `Option`. -/
structure LocatorRecord where
  locator : String
  type : String
  description : String
  discovered_at : Nat
  used_count : Nat
  last_used_at : Option Nat
deriving Repr, DecidableEq

/-- The in-memory repository: pages in insertion order, each carrying
its objects in insertion order, plus a count of the persistence writes
performed by `_save_repository`. -/
structure Store where
  pages : List (String × List (String × LocatorRecord))
  saves : Nat
deriving Repr, DecidableEq

/-- Association-list lookup (Python dictionary membership and read). -/
def lookupA {α : Type} : List (String × α) → String → Option α
  | [], _ => none
  | (k2, v) :: rest, k => if k2 = k then some v else lookupA rest k

/-- Association-list assignment (Python dictionary item assignment:
replace in place when the key exists, append otherwise). -/
def setA {α : Type} : List (String × α) → String → α → List (String × α)
  | [], k, v => [(k, v)]
  | (k2, v2) :: rest, k, v =>
      if k2 = k then (k2, v) :: rest else (k2, v2) :: setA rest k v

/-- Read the record under `(page, object)`, without side effects. -/
def lookupStore (s : Store) (page_name object_name : String) : Option LocatorRecord :=
  (lookupA s.pages page_name).bind (fun objs => lookupA objs object_name)

/-- Method `LocatorRepository.add_locator`: create or overwrite the record
under `(page, object)`, keeping the prior `used_count` for an existing
key and taking a fresh `discovered_at`; persist; report whether the key
was new. -/
def add_locator (s : Store) (now : Nat)
    (page_name object_name locator object_type descr : String) : Store × Bool :=
  let objs := (lookupA s.pages page_name).getD []
  let is_new := (lookupA objs object_name).isNone
  let newRec : LocatorRecord :=
    { locator := locator, type := object_type, description := descr,
      discovered_at := now,
      used_count := match lookupA objs object_name with
                    | none => 0
                    | some r => r.used_count,
      last_used_at := none }
  ({ pages := setA s.pages page_name (setA objs object_name newRec),
     saves := s.saves + 1 }, is_new)

/-- Method `LocatorRepository.get_locator`: on a hit, bump `used_count`, stamp
`last_used_at`, persist, and return the updated record; on a miss,
return `none` with no effect. -/
def get_locator (s : Store) (now : Nat)
    (page_name object_name : String) : Store × Option LocatorRecord :=
  match lookupA s.pages page_name with
  | none => (s, none)
  | some objs =>
      match lookupA objs object_name with
      | none => (s, none)
      | some r =>
          let r2 : LocatorRecord :=
            { r with used_count := r.used_count + 1, last_used_at := some now }
          ({ pages := setA s.pages page_name (setA objs object_name r2),
             saves := s.saves + 1 }, some r2)

/-- Result of `get_locator_by_search`: the matched record together with
its object name (the Python dictionary spread with the added
`object_name` key). -/
structure SearchResult where
  record : LocatorRecord
  object_name : String
deriving Repr, DecidableEq

/-- The match test of `get_locator_by_search`: case-insensitive
substring match of the search term against the object name or the
record description. -/
def matchesTerm (term obj : String) (r : LocatorRecord) : Bool :=
  strContains (lowerStr obj) (lowerStr term) ||
  strContains (lowerStr r.description) (lowerStr term)

/-- Scan the objects of one page in order and return the first match. -/
def searchObjs (term : String) : List (String × LocatorRecord) → Option SearchResult
  | [] => none
  | (obj, r) :: rest =>
      if matchesTerm term obj r then some ⟨r, obj⟩ else searchObjs term rest

/-- Method `LocatorRepository.get_locator_by_search`: fuzzy lookup by name or
description; reads only, never persists. -/
def get_locator_by_search (s : Store) (page_name search_term : String) :
    Store × Option SearchResult :=
  match lookupA s.pages page_name with
  | none => (s, none)
  | some objs => (s, searchObjs search_term objs)

/-- One observable interaction with the browser page during action
execution: the driver calls of `_execute_action`, and the fixed settle
delays (`asyncio.sleep`, in milliseconds) that follow some of them. -/
inductive Event where
  | fillEv (selector value : String)
  | clickEv (selector : String)
  | waitEv (selector : String) (timeoutMs : Nat)
  | visEv (selector : String)
  | sleepEv (ms : Nat)
deriving Repr, DecidableEq

/-- The browser driver capability consumed by the executor.  Each
operation may raise (modelled by `Except.error` carrying the message of
the Python exception). -/
structure Driver where
  fill : String → String → Except String Unit
  click : String → Except String Unit
  wait_for_selector : String → Nat → Except String Unit
  is_visible : String → Except String Bool

/-- Split an action line on the pipe character and strip each field
(the list comprehension at the top of `_execute_action`). -/
def fieldsOf (s : String) : List String :=
  (splitOnChar (Char.ofNat 124) s.data).map (fun cs => stripStr (String.mk cs))

/-- A parsed action line: kind (lower-cased), selector, and the value
and description fields, which default to the empty string. -/
structure ParsedAction where
  action_type : String
  selector : String
  value : String
  descr : String
deriving Repr, DecidableEq

/-- The parsing step of `_execute_action`: split on the pipe, strip the
fields, require at least two of them, lower-case the kind, default the
value and description to the empty string. -/
def parse_action (action_str : String) : Option ParsedAction :=
  let parts := fieldsOf action_str
  if parts.length < 2 then none
  else some
    { action_type := lowerStr (parts.getD 0 ""),
      selector := parts.getD 1 "",
      value := parts.getD 2 "",
      descr := parts.getD 3 "" }

/-- The kind dispatch of `_execute_action` in
src/Working-AI-Powered_Automation.py, applied to an already-parsed
action.  Returns the result text together with the page interactions
performed; a driver exception is caught here and stringified. -/
def run_parsed (d : Driver) (a : ParsedAction) : String × List Event :=
  if a.action_type = "fill" then
    match d.fill a.selector a.value with
    | .ok _ => ("Filled " ++ a.selector ++ " = " ++ squote ++ a.value ++ squote,
                [Event.fillEv a.selector a.value, Event.sleepEv 500])
    | .error e => ("Exec error: " ++ e, [Event.fillEv a.selector a.value])
  else if a.action_type = "click" then
    match d.click a.selector with
    | .ok _ => ("Clicked " ++ a.selector, [Event.clickEv a.selector, Event.sleepEv 1000])
    | .error e => ("Exec error: " ++ e, [Event.clickEv a.selector])
  else if a.action_type = "wait_for" then
    match d.wait_for_selector a.selector 5000 with
    | .ok _ => ("Element appeared: " ++ a.selector, [Event.waitEv a.selector 5000])
    | .error e => ("Exec error: " ++ e, [Event.waitEv a.selector 5000])
  else if a.action_type = "clear" then
    match d.fill a.selector "" with
    | .ok _ => ("Cleared " ++ a.selector, [Event.fillEv a.selector ""])
    | .error e => ("Exec error: " ++ e, [Event.fillEv a.selector ""])
  else if a.action_type = "verify" then
    match d.is_visible a.selector with
    | .ok true => (a.selector ++ ": visible", [Event.visEv a.selector])
    | .ok false => (a.selector ++ ": NOT visible", [Event.visEv a.selector])
    | .error e => ("Exec error: " ++ e, [Event.visEv a.selector])
  else ("Unknown action: " ++ a.action_type, [])

/-- Method `DirectLLMAutomationAgent._execute_action` of
src/Working-AI-Powered_Automation.py: parse, then dispatch; a line with
fewer than two fields yields the Invalid-action result string. -/
def execute_action (d : Driver) (action_str : String) : String × List Event :=
  match parse_action action_str with
  | none => ("Invalid action: " ++ action_str, [])
  | some a => run_parsed d a

/-- The kind dispatch of the `_execute_action` variant in
src/test_new.py: same driver calls and delays, different result
wording, and the visibility kind is spelled check_visible there. -/
def run_parsed_v2 (d : Driver) (a : ParsedAction) : String × List Event :=
  if a.action_type = "fill" then
    match d.fill a.selector a.value with
    | .ok _ => ("Filled " ++ a.selector ++ " with " ++ squote ++ a.value ++ squote,
                [Event.fillEv a.selector a.value, Event.sleepEv 500])
    | .error e => ("Action execution error: " ++ e, [Event.fillEv a.selector a.value])
  else if a.action_type = "click" then
    match d.click a.selector with
    | .ok _ => ("Clicked " ++ a.selector, [Event.clickEv a.selector, Event.sleepEv 1000])
    | .error e => ("Action execution error: " ++ e, [Event.clickEv a.selector])
  else if a.action_type = "wait_for" then
    match d.wait_for_selector a.selector 5000 with
    | .ok _ => ("Element " ++ a.selector ++ " appeared", [Event.waitEv a.selector 5000])
    | .error e => ("Action execution error: " ++ e, [Event.waitEv a.selector 5000])
  else if a.action_type = "clear" then
    match d.fill a.selector "" with
    | .ok _ => ("Cleared " ++ a.selector, [Event.fillEv a.selector ""])
    | .error e => ("Action execution error: " ++ e, [Event.fillEv a.selector ""])
  else if a.action_type = "check_visible" then
    match d.is_visible a.selector with
    | .ok b => ("Element " ++ a.selector ++ " visible: " ++ (if b then "True" else "False"),
                [Event.visEv a.selector])
    | .error e => ("Action execution error: " ++ e, [Event.visEv a.selector])
  else ("Unknown action: " ++ a.action_type, [])

/-- Method `_execute_action` of src/test_new.py. -/
def execute_action_v2 (d : Driver) (action_str : String) : String × List Event :=
  match parse_action action_str with
  | none => ("Error parsing action: " ++ action_str, [])
  | some a => run_parsed_v2 d a

/-- The value heuristic of the cache-hit path: when the cached kind is
fill, the value is the first single-quoted substring of the
instruction, or the empty string when there is none. -/
def firstQuoted (instruction : String) : String :=
  match (splitOnChar (Char.ofNat 39) instruction.data).map String.mk with
  | _ :: v :: _ :: _ => v
  | _ => ""

/-- The slow path of `DirectLLMAutomationAgent.execute_task` (the try
block): consult the intent oracle; when it raises, the blanket except
clause turns the exception into an Error result string; otherwise strip
the reply, store the discovered locator when an object name was
supplied and the reply has at least two fields, and execute the reply.
The third component counts the oracle invocations made. -/
def llm_resolve (d : Driver) (oracle : Except String String) (s : Store) (now : Nat)
    (page_name instruction : String) (object_name : Option String) :
    Store × String × Nat :=
  match oracle with
  | .error e => (s, "Error: " ++ e, 1)
  | .ok raw =>
      let llm_response := stripStr raw
      let parts := fieldsOf llm_response
      let s2 :=
        if 2 ≤ parts.length then
          match object_name with
          | some obj =>
              (add_locator s now page_name obj (parts.getD 1 "")
                (lowerStr (parts.getD 0 "")) (parts.getD 3 instruction)).1
          | none => s
        else s
      (s2, (execute_action d llm_response).1, 1)

/-- Method `DirectLLMAutomationAgent.execute_task`: cache-first resolution.
With an object name whose key is cached, reconstruct the action line
from the cached record and execute it with no oracle call; otherwise
fall through to the slow path. -/
def execute_task (d : Driver) (oracle : Except String String) (s : Store) (now : Nat)
    (page_name instruction : String) (object_name : Option String) :
    Store × String × Nat :=
  match object_name with
  | none => llm_resolve d oracle s now page_name instruction none
  | some obj =>
      let probe := get_locator s now page_name obj
      match probe.2 with
      | some cached =>
          let value := if cached.type = "fill" then firstQuoted instruction else ""
          let full_action := cached.type ++ " | " ++ cached.locator ++ " | " ++
            value ++ " | " ++ cached.description
          (probe.1, (execute_action d full_action).1, 0)
      | none => llm_resolve d oracle probe.1 now page_name instruction (some obj)

/-- The orchestration loop of `main`: run the steps strictly in order,
one result per step; the oracle test double is indexed by the number of
oracle invocations made so far (threaded as `calls`). -/
def run_loop (d : Driver) (oracle : Nat → Except String String) (s : Store) (now : Nat)
    (page_name : String) (calls : Nat) :
    List (String × Option String) → Store × Nat × List String
  | [] => (s, calls, [])
  | (instruction, ob) :: rest =>
      let step := execute_task d (oracle calls) s now page_name instruction ob
      let next := run_loop d oracle step.1 now page_name (calls + step.2.2) rest
      (next.1, next.2.1, step.2.1 :: next.2.2)

/-- A driver on which every operation succeeds and every element is
visible. -/
def dOk : Driver :=
  { fill := fun _ _ => .ok (), click := fun _ => .ok (),
    wait_for_selector := fun _ _ => .ok (), is_visible := fun _ => .ok true }

/-- A driver whose click on the selector #bad raises with message boom;
everything else succeeds. -/
def dFail : Driver :=
  { fill := fun _ _ => .ok (),
    click := fun sel => if sel = "#bad" then .error "boom" else .ok (),
    wait_for_selector := fun _ _ => .ok (), is_visible := fun _ => .ok true }

theorem lookupA_setA_self {α : Type} (l : List (String × α)) (k : String) (v : α) :
    lookupA (setA l k v) k = some v := by
  induction l with
  | nil => simp [setA, lookupA]
  | cons hd tl ih =>
      obtain ⟨k2, v2⟩ := hd
      by_cases h : k2 = k
      · simp [setA, h, lookupA]
      · simp [setA, h, lookupA, ih]

theorem lookupA_setA_other {α : Type} (l : List (String × α)) (k k2 : String) (v : α)
    (h : k2 ≠ k) : lookupA (setA l k v) k2 = lookupA l k2 := by
  induction l with
  | nil => simp [setA, lookupA, Ne.symm h]
  | cons hd tl ih =>
      obtain ⟨k3, v3⟩ := hd
      by_cases h3 : k3 = k
      · subst h3
        simp [setA, lookupA, Ne.symm h]
      · simp [setA, h3, lookupA, ih]

/-- The record found under the put key right after a put. -/
theorem lookupStore_add_self (s : Store) (now : Nat) (p o sel ty de : String) :
    lookupStore (add_locator s now p o sel ty de).1 p o =
      some { locator := sel, type := ty, description := de, discovered_at := now,
             used_count := match lookupStore s p o with
                           | none => 0
                           | some r => r.used_count,
             last_used_at := none } := by
  unfold add_locator lookupStore
  cases hp : lookupA s.pages p with
  | none => simp [hp, lookupA, lookupA_setA_self]
  | some objs => cases ho : lookupA objs o <;> simp [hp, ho, lookupA_setA_self]

/-- A put never touches any key other than its own. -/
theorem lookupStore_add_other (s : Store) (now : Nat) (p o sel ty de p2 o2 : String)
    (h : ¬ (p2 = p ∧ o2 = o)) :
    lookupStore (add_locator s now p o sel ty de).1 p2 o2 = lookupStore s p2 o2 := by
  unfold add_locator lookupStore
  by_cases hp : p2 = p
  · subst hp
    have ho : o2 ≠ o := fun hh => h ⟨rfl, hh⟩
    cases hpl : lookupA s.pages p2 with
    | none => simp [hpl, lookupA_setA_self, lookupA_setA_other _ _ _ _ ho, lookupA, Ne.symm ho]
    | some objs => simp [hpl, lookupA_setA_self, lookupA_setA_other _ _ _ _ ho]
  · simp [lookupA_setA_other _ _ _ _ hp]

/-- A successful read returns the bumped record and stores it back. -/
theorem get_locator_hit (s : Store) (now : Nat) (p o : String) (r : LocatorRecord)
    (h : lookupStore s p o = some r) :
    (get_locator s now p o).2 =
        some { r with used_count := r.used_count + 1, last_used_at := some now }
    ∧ lookupStore (get_locator s now p o).1 p o =
        some { r with used_count := r.used_count + 1, last_used_at := some now }
    ∧ (get_locator s now p o).1.saves = s.saves + 1 := by
  unfold lookupStore at h
  cases hp : lookupA s.pages p with
  | none => rw [hp] at h; simp at h
  | some objs =>
      rw [hp] at h
      simp only [Option.some_bind] at h
      simp only [get_locator, hp, h]
      refine ⟨trivial, ?_, trivial⟩
      simp [lookupStore, lookupA_setA_self]

/-- A read on an absent key is a no-op returning none. -/
theorem get_locator_miss (s : Store) (now : Nat) (p o : String)
    (h : lookupStore s p o = none) : get_locator s now p o = (s, none) := by
  unfold lookupStore at h
  cases hp : lookupA s.pages p with
  | none => simp [get_locator, hp]
  | some objs =>
      rw [hp] at h
      simp only [Option.some_bind] at h
      simp [get_locator, hp, h]

/-- A read never creates a key: every key absent before stays absent. -/
theorem get_locator_no_new_key (s : Store) (now : Nat) (p o p2 o2 : String)
    (h : lookupStore s p2 o2 = none) :
    lookupStore (get_locator s now p o).1 p2 o2 = none := by
  cases hall : lookupStore s p o with
  | none => rw [get_locator_miss s now p o hall]; exact h
  | some r =>
      unfold lookupStore at hall
      cases hp : lookupA s.pages p with
      | none => rw [hp] at hall; simp at hall
      | some objs =>
          rw [hp] at hall
          simp only [Option.some_bind] at hall
          simp only [get_locator, hp, hall]
          by_cases hps : p2 = p
          · subst hps
            have ho2 : o2 ≠ o := by
              intro hh
              subst hh
              rw [lookupStore, hp] at h
              simp only [Option.some_bind] at h
              rw [hall] at h
              exact Option.some_ne_none _ h
            rw [lookupStore, hp] at h
            simp only [Option.some_bind] at h
            simp [lookupStore, lookupA_setA_self, lookupA_setA_other _ _ _ _ ho2, h]
          · simp only [lookupStore]
            rw [lookupA_setA_other _ _ _ _ hps]
            unfold lookupStore at h
            exact h

/-- C1: after a put under a key, a get on that key returns a record
whose selector, kind and description equal the arguments of that last
put; every get on a present key increments the used count of the record
by exactly one (both in the returned record and in the stored one); and
a put on an existing key preserves the prior used count while
overwriting selector, kind, description and the refreshed
discovered-at. -/
theorem C1_put_get_contract :
    (∀ (s : Store) (now now2 : Nat) (p o sel ty de : String),
      ((get_locator (add_locator s now p o sel ty de).1 now2 p o).2).map
          (fun r => (r.locator, r.type, r.description)) = some (sel, ty, de))
    ∧ (∀ (s : Store) (now : Nat) (p o : String) (r : LocatorRecord),
        lookupStore s p o = some r →
        (get_locator s now p o).2 =
            some { r with used_count := r.used_count + 1, last_used_at := some now }
          ∧ lookupStore (get_locator s now p o).1 p o =
            some { r with used_count := r.used_count + 1, last_used_at := some now })
    ∧ (∀ (s : Store) (now : Nat) (p o sel ty de : String) (r : LocatorRecord),
        lookupStore s p o = some r →
        lookupStore (add_locator s now p o sel ty de).1 p o =
          some { locator := sel, type := ty, description := de, discovered_at := now,
                 used_count := r.used_count, last_used_at := none }) := by
  refine ⟨?_, ?_, ?_⟩
  · intro s now now2 p o sel ty de
    have hadd := lookupStore_add_self s now p o sel ty de
    have hget := get_locator_hit _ now2 p o _ hadd
    rw [hget.1]
    rfl
  · intro s now p o r h
    exact ⟨(get_locator_hit s now p o r h).1, (get_locator_hit s now p o r h).2.1⟩
  · intro s now p o sel ty de r h
    rw [lookupStore_add_self, h]

/-- C1 witness: the contract on a store holding one freshly put
record. -/
theorem C1_put_get_contract_witness :
    (get_locator (add_locator (Store.mk [] 0) 5 "P" "O" "#a" "fill" "d").1 7 "P" "O").2 =
        some { locator := "#a", type := "fill", description := "d", discovered_at := 5,
               used_count := 1, last_used_at := some 7 }
      ∧ lookupStore (get_locator (add_locator (Store.mk [] 0) 5 "P" "O" "#a" "fill" "d").1
          7 "P" "O").1 "P" "O" =
        some { locator := "#a", type := "fill", description := "d", discovered_at := 5,
               used_count := 1, last_used_at := some 7 } :=
  C1_put_get_contract.2.1 _ 7 "P" "O"
    { locator := "#a", type := "fill", description := "d", discovered_at := 5,
      used_count := 0, last_used_at := none } (by decide)

/-- C8: a get on an absent key returns none, has no side effect on the
in-memory store, and performs no persistence write. -/
theorem C8_get_absent_noop :
    ∀ (s : Store) (now : Nat) (p o : String),
      lookupStore s p o = none →
      get_locator s now p o = (s, none) ∧
        (get_locator s now p o).1.saves = s.saves := by
  intro s now p o h
  refine ⟨get_locator_miss s now p o h, ?_⟩
  rw [get_locator_miss s now p o h]

/-- C8 witness: reading an absent key from the empty store. -/
theorem C8_get_absent_noop_witness :
    get_locator (Store.mk [] 0) 3 "P" "O" = (Store.mk [] 0, none) ∧
      (get_locator (Store.mk [] 0) 3 "P" "O").1.saves = (Store.mk [] 0).saves :=
  C8_get_absent_noop (Store.mk [] 0) 3 "P" "O" (by decide)

/-- C10: search is read-only — the store comes back unchanged (so every
used count and last-used stamp is untouched and no persistence write
happens), and the result is exactly the first record of the page whose
object name or description contains the term case-insensitively,
augmented with its object name; a page miss or a term with no match
yields none. -/
theorem C10_search_readonly :
    (∀ (s : Store) (p term : String), (get_locator_by_search s p term).1 = s)
    ∧ (∀ (objs : List (String × LocatorRecord)) (term : String) (res : SearchResult),
        searchObjs term objs = some res →
        ∃ pre post, objs = pre ++ (res.object_name, res.record) :: post ∧
          matchesTerm term res.object_name res.record = true ∧
          ∀ q ∈ pre, matchesTerm term q.1 q.2 = false)
    ∧ (∀ (objs : List (String × LocatorRecord)) (term : String),
        searchObjs term objs = none → ∀ q ∈ objs, matchesTerm term q.1 q.2 = false)
    ∧ (∀ (s : Store) (p term : String), lookupA s.pages p = none →
        (get_locator_by_search s p term).2 = none)
    ∧ (∀ (s : Store) (p term : String) (objs : List (String × LocatorRecord)),
        lookupA s.pages p = some objs →
        (get_locator_by_search s p term).2 = searchObjs term objs) := by
  refine ⟨?_, ?_, ?_, ?_, ?_⟩
  · intro s p term
    cases h : lookupA s.pages p <;> simp [get_locator_by_search, h]
  · intro objs term
    induction objs with
    | nil => intro res h; simp [searchObjs] at h
    | cons q rest ih =>
        obtain ⟨obj, r⟩ := q
        intro res h
        by_cases hm : matchesTerm term obj r = true
        · simp only [searchObjs, if_pos hm, Option.some.injEq] at h
          subst h
          exact ⟨[], rest, rfl, hm, by simp⟩
        · simp only [searchObjs, if_neg hm] at h
          obtain ⟨pre, post, he, hmt, hpre⟩ := ih res h
          refine ⟨(obj, r) :: pre, post, by rw [he]; rfl, hmt, ?_⟩
          intro q2 hq2
          rcases List.mem_cons.mp hq2 with h2 | h2
          · subst h2
            simpa using hm
          · exact hpre q2 h2
  · intro objs term
    induction objs with
    | nil => intro _ q hq; simp at hq
    | cons q rest ih =>
        obtain ⟨obj, r⟩ := q
        intro h q2 hq2
        by_cases hm : matchesTerm term obj r = true
        · simp [searchObjs, hm] at h
        · simp only [searchObjs, if_neg hm] at h
          rcases List.mem_cons.mp hq2 with h2 | h2
          · subst h2
            simpa using hm
          · exact ih h q2 h2
  · intro s p term h
    simp [get_locator_by_search, h]
  · intro s p term objs h
    simp [get_locator_by_search, h]

/-- A sample stored record for the search witness: a click locator. -/
def recA : LocatorRecord :=
  { locator := "#login", type := "click", description := "the login button",
    discovered_at := 1, used_count := 0, last_used_at := none }

/-- A sample stored record for the search witness: a fill locator. -/
def recB : LocatorRecord :=
  { locator := "#user", type := "fill", description := "user name input",
    discovered_at := 1, used_count := 2, last_used_at := some 9 }

/-- C10 witness: a concrete case-insensitive search skipping one
non-matching record and returning the first match with its name. -/
theorem C10_search_readonly_witness :
    ∃ pre post,
      [("LoginButton", recA), ("UsernameField", recB)] =
        pre ++ ("UsernameField", recB) :: post ∧
      matchesTerm "USER" "UsernameField" recB = true ∧
      ∀ q ∈ pre, matchesTerm "USER" q.1 q.2 = false :=
  C10_search_readonly.2.1 [("LoginButton", recA), ("UsernameField", recB)] "USER"
    ⟨recB, "UsernameField"⟩ (by decide)

/-- C4: parsing splits on the pipe, trims whitespace from every field,
lower-cases the kind, defaults missing value and description to the
empty string, and any line with fewer than two fields yields the
descriptive Invalid-action result string instead of an exception. -/
theorem C4_action_grammar :
    parse_action "fill | #a | x | d" =
        some { action_type := "fill", selector := "#a", value := "x", descr := "d" }
    ∧ parse_action "click | #b" =
        some { action_type := "click", selector := "#b", value := "", descr := "" }
    ∧ parse_action "  FiLL |  #a  " =
        some { action_type := "fill", selector := "#a", value := "", descr := "" }
    ∧ parse_action "fill" = none
    ∧ (∀ (line : String), (fieldsOf line).length < 2 → parse_action line = none)
    ∧ (∀ (d : Driver) (line : String), parse_action line = none →
        execute_action d line = ("Invalid action: " ++ line, [])) := by
  refine ⟨by decide, by decide, by decide, by decide, ?_, ?_⟩
  · intro line h
    simp [parse_action, h]
  · intro d line h
    simp [execute_action, h]

/-- C4 witness: a single-field line surfaces as a result string. -/
theorem C4_action_grammar_witness :
    execute_action dOk "fill" = ("Invalid action: fill", []) :=
  C4_action_grammar.2.2.2.2.2 dOk "fill" (by decide)

/-- C5 counterexample: no single executor treats both verify and
check_visible as a visibility check — the main executor rejects
check_visible as an unknown action with no driver call, and the variant
executor of test_new.py rejects verify likewise. -/
theorem C5_counterexample :
    execute_action dOk "check_visible | #a" = ("Unknown action: check_visible", []) ∧
      execute_action_v2 dOk "verify | #a" = ("Unknown action: verify", []) := by
  decide

/-- C5 amended: the main executor treats verify — and the test_new.py
variant treats check_visible — as a non-blocking visibility check
returning descriptive boolean result text, never erroring when the
driver answers the visibility probe; and in each executor every kind
outside its own recognized set parses successfully but fails at
execution with an unknown-action result. -/
theorem C5_verify_dispatch :
    (∀ (d : Driver) (sel v de : String) (b : Bool), d.is_visible sel = .ok b →
      run_parsed d { action_type := "verify", selector := sel, value := v, descr := de } =
        (sel ++ ": " ++ (if b then "visible" else "NOT visible"), [Event.visEv sel]))
    ∧ (∀ (d : Driver) (sel v de : String) (b : Bool), d.is_visible sel = .ok b →
      run_parsed_v2 d
          { action_type := "check_visible", selector := sel, value := v, descr := de } =
        ("Element " ++ sel ++ " visible: " ++ (if b then "True" else "False"),
         [Event.visEv sel]))
    ∧ (∀ (d : Driver) (a : ParsedAction),
        a.action_type ∉ (["fill", "click", "wait_for", "clear", "verify"] : List String) →
        run_parsed d a = ("Unknown action: " ++ a.action_type, []))
    ∧ (∀ (d : Driver) (a : ParsedAction),
        a.action_type ∉
            (["fill", "click", "wait_for", "clear", "check_visible"] : List String) →
        run_parsed_v2 d a = ("Unknown action: " ++ a.action_type, [])) := by
  refine ⟨?_, ?_, ?_, ?_⟩
  · intro d sel v de b h
    cases b <;> simp [run_parsed, h] <;> rw [String.append_assoc] <;>
      exact congrArg (fun t => sel ++ t) (by decide)
  · intro d sel v de b h
    cases b <;> simp [run_parsed_v2, h]
  · intro d a h
    simp only [List.mem_cons, not_or] at h
    obtain ⟨h1, h2, h3, h4, h5, _⟩ := h
    simp [run_parsed, h1, h2, h3, h4, h5]
  · intro d a h
    simp only [List.mem_cons, not_or] at h
    obtain ⟨h1, h2, h3, h4, h5, _⟩ := h
    simp [run_parsed_v2, h1, h2, h3, h4, h5]

/-- C5 witness: the visibility probe answered true on each executor. -/
theorem C5_verify_dispatch_witness :
    run_parsed dOk { action_type := "verify", selector := "#a", value := "", descr := "" } =
        ("#a: visible", [Event.visEv "#a"]) ∧
      run_parsed_v2 dOk
          { action_type := "check_visible", selector := "#a", value := "", descr := "" } =
        ("Element #a visible: True", [Event.visEv "#a"]) :=
  ⟨C5_verify_dispatch.1 dOk "#a" "" "" true rfl,
   C5_verify_dispatch.2.1 dOk "#a" "" "" true rfl⟩

/-- C6 counterexample: clear is not observationally identical to fill
with an empty value — fill performs a settle sleep that clear skips,
and the confirmation wording differs beyond the reported value. -/
theorem C6_counterexample :
    execute_action dOk "clear | #a" = ("Cleared #a", [Event.fillEv "#a" ""]) ∧
      execute_action dOk "fill | #a" =
        ("Filled #a = " ++ squote ++ squote,
         [Event.fillEv "#a" "", Event.sleepEv 500]) ∧
      (execute_action dOk "clear | #a").2 ≠ (execute_action dOk "fill | #a").2 := by
  decide

/-- The driver interactions of a trace, without the settle delays. -/
def driverEvents (tr : List Event) : List Event :=
  tr.filter (fun ev => match ev with | Event.sleepEv _ => false | _ => true)

/-- C6 amended: for every selector, clear performs exactly the same
driver call as fill with the empty value — a driver fill of the empty
string, with identical error containment — but clear performs no settle
delay where fill sleeps half a second, and it reports Cleared instead
of the fill confirmation text. -/
theorem C6_clear_is_unsettled_empty_fill :
    ∀ (d : Driver) (sel v de de2 : String),
      driverEvents
          (run_parsed d
            { action_type := "clear", selector := sel, value := v, descr := de }).2 =
        driverEvents
          (run_parsed d
            { action_type := "fill", selector := sel, value := "", descr := de2 }).2
      ∧ (∀ e, d.fill sel "" = .error e →
          run_parsed d { action_type := "clear", selector := sel, value := v, descr := de } =
              ("Exec error: " ++ e, [Event.fillEv sel ""]) ∧
            run_parsed d
                { action_type := "fill", selector := sel, value := "", descr := de2 } =
              ("Exec error: " ++ e, [Event.fillEv sel ""]))
      ∧ (d.fill sel "" = .ok () →
          run_parsed d { action_type := "clear", selector := sel, value := v, descr := de } =
              ("Cleared " ++ sel, [Event.fillEv sel ""]) ∧
            run_parsed d
                { action_type := "fill", selector := sel, value := "", descr := de2 } =
              ("Filled " ++ sel ++ " = " ++ squote ++ squote,
               [Event.fillEv sel "", Event.sleepEv 500])) := by
  intro d sel v de de2
  refine ⟨?_, ?_, ?_⟩
  · cases h : d.fill sel "" with
    | ok u => cases u; simp [run_parsed, h, driverEvents]
    | error e => simp [run_parsed, h, driverEvents]
  · intro e h
    constructor <;> simp [run_parsed, h]
  · intro h
    constructor <;> simp [run_parsed, h]

/-- C6 witness: the equivalence on a driver whose fill succeeds. -/
theorem C6_clear_is_unsettled_empty_fill_witness :
    run_parsed dOk { action_type := "clear", selector := "#a", value := "x", descr := "d" } =
        ("Cleared #a", [Event.fillEv "#a" ""]) ∧
      run_parsed dOk { action_type := "fill", selector := "#a", value := "", descr := "d" } =
        ("Filled #a = " ++ squote ++ squote,
         [Event.fillEv "#a" "", Event.sleepEv 500]) :=
  (C6_clear_is_unsettled_empty_fill dOk "#a" "x" "d" "d").2.2 rfl

/-- On a cache hit, the resolver reconstructs the action line from the
cached record (whose selector, kind and description survive the usage
bump) and executes it without the oracle. -/
theorem execute_task_hit (d : Driver) (oracle : Except String String) (s : Store)
    (now : Nat) (p instruction o : String) (r : LocatorRecord)
    (h : lookupStore s p o = some r) :
    execute_task d oracle s now p instruction (some o) =
      ((get_locator s now p o).1,
       (execute_action d (r.type ++ " | " ++ r.locator ++ " | " ++
          (if r.type = "fill" then firstQuoted instruction else "") ++ " | " ++
          r.description)).1, 0) := by
  have h2 := (get_locator_hit s now p o r h).1
  simp only [execute_task, h2]

/-- On a cache miss the resolver falls through to the slow path with
the store untouched. -/
theorem execute_task_miss (d : Driver) (oracle : Except String String) (s : Store)
    (now : Nat) (p instruction o : String) (h : lookupStore s p o = none) :
    execute_task d oracle s now p instruction (some o) =
      llm_resolve d oracle s now p instruction (some o) := by
  simp only [execute_task, get_locator_miss s now p o h]

/-- A raising oracle is swallowed by the except clause of the slow
path, leaving the store untouched after one oracle invocation. -/
theorem llm_resolve_error (d : Driver) (e : String) (s : Store) (now : Nat)
    (p instruction : String) (ob : Option String) :
    llm_resolve d (Except.error e) s now p instruction ob = (s, "Error: " ++ e, 1) := rfl

/-- The store after a successful oracle reply on the slow path: a put
happens exactly when an object name was supplied and the stripped reply
splits into at least two fields. -/
theorem llm_resolve_ok_store (d : Driver) (raw : String) (s : Store) (now : Nat)
    (p instruction : String) (ob : Option String) :
    (llm_resolve d (Except.ok raw) s now p instruction ob).1 =
      if 2 ≤ (fieldsOf (stripStr raw)).length then
        match ob with
        | some o => (add_locator s now p o ((fieldsOf (stripStr raw)).getD 1 "")
            (lowerStr ((fieldsOf (stripStr raw)).getD 0 ""))
            ((fieldsOf (stripStr raw)).getD 3 instruction)).1
        | none => s
      else s := rfl

/-- C2: resolving an already-cached (page, object) key makes zero
oracle calls and executes the action line rebuilt from the cached kind,
selector and description, with the fill value taken as the first
single-quoted substring of the instruction; an uncached object costs
exactly one oracle invocation; and the quote heuristic yields foo for a
quoted instruction and the empty string for an unquoted one. -/
theorem C2_cache_hit_reconstruction :
    (∀ (d : Driver) (oracle : Except String String) (s : Store) (now : Nat)
        (p instruction o : String) (r : LocatorRecord),
      lookupStore s p o = some r →
      (execute_task d oracle s now p instruction (some o)).2.2 = 0 ∧
        (execute_task d oracle s now p instruction (some o)).2.1 =
          (execute_action d (r.type ++ " | " ++ r.locator ++ " | " ++
            (if r.type = "fill" then firstQuoted instruction else "") ++ " | " ++
            r.description)).1)
    ∧ (∀ (d : Driver) (oracle : Except String String) (s : Store) (now : Nat)
        (p instruction o : String),
      lookupStore s p o = none →
      (execute_task d oracle s now p instruction (some o)).2.2 = 1)
    ∧ firstQuoted ("Fill field with " ++ squote ++ "foo" ++ squote) = "foo"
    ∧ firstQuoted "Fill field with no quotes" = "" := by
  refine ⟨?_, ?_, by decide, by decide⟩
  · intro d oracle s now p instruction o r h
    rw [execute_task_hit d oracle s now p instruction o r h]
    exact ⟨rfl, rfl⟩
  · intro d oracle s now p instruction o h
    rw [execute_task_miss d oracle s now p instruction o h]
    cases oracle <;> rfl

/-- C2 witness: with the fill record recB cached, resolution succeeds
with zero oracle calls even though the oracle double is down. -/
theorem C2_cache_hit_reconstruction_witness :
    (execute_task dOk (Except.error "down") (Store.mk [("P", [("O", recB)])] 0) 4 "P"
        ("Fill field with " ++ squote ++ "foo" ++ squote) (some "O")).2.2 = 0 ∧
      (execute_task dOk (Except.error "down") (Store.mk [("P", [("O", recB)])] 0) 4 "P"
        ("Fill field with " ++ squote ++ "foo" ++ squote) (some "O")).2.1 =
      (execute_action dOk (recB.type ++ " | " ++ recB.locator ++ " | " ++
        (if recB.type = "fill" then
          firstQuoted ("Fill field with " ++ squote ++ "foo" ++ squote) else "") ++
        " | " ++ recB.description)).1 :=
  C2_cache_hit_reconstruction.1 dOk (Except.error "down")
    (Store.mk [("P", [("O", recB)])] 0) 4 "P"
    ("Fill field with " ++ squote ++ "foo" ++ squote) "O" recB (by decide)

/-- An oracle double that raises on its second invocation. -/
def oracleC3 : Nat → Except String String
  | 0 => .ok "fill | #u | x | d"
  | 1 => .error "boom"
  | _ => .ok "verify | #p |  | check"

/-- C3 counterexample: with the oracle raising on the second of three
steps, the loop still produces three results in order — the failure is
caught inside the resolver and surfaced as an Error result string, the
remaining step still runs, and nothing terminates the run. -/
theorem C3_counterexample :
    (run_loop dOk oracleC3 (Store.mk [] 0) 3 "LoginPage" 0
        [("a", none), ("b", none), ("c", none)]).2.2 =
      ["Filled #u = " ++ squote ++ "x" ++ squote, "Error: boom", "#p: visible"] := by
  decide

/-- C3 amended: when the intent oracle raises during resolution, the
blanket except clause of the resolver catches it and returns the
stringified Error result for that step, leaving the store untouched
after the one oracle invocation; the error never escapes the resolver,
so no oracle failure is fatal to a run. -/
theorem C3_oracle_error_contained :
    ∀ (d : Driver) (e : String) (s : Store) (now : Nat) (p instruction : String)
      (object_name : Option String),
      (∀ o, object_name = some o → lookupStore s p o = none) →
      execute_task d (Except.error e) s now p instruction object_name =
        (s, "Error: " ++ e, 1) := by
  intro d e s now p instruction object_name h
  cases object_name with
  | none => rfl
  | some o =>
      rw [execute_task_miss d (Except.error e) s now p instruction o (h o rfl)]
      rfl

/-- C3 witness: the contained oracle failure on the empty store. -/
theorem C3_oracle_error_contained_witness :
    execute_task dOk (Except.error "boom") (Store.mk [] 0) 3 "P" "instr" (some "O") =
      (Store.mk [] 0, "Error: boom", 1) :=
  C3_oracle_error_contained dOk "boom" (Store.mk [] 0) 3 "P" "instr" (some "O")
    (fun _ _ => rfl)

/-- An oracle double whose second reply clicks the selector on which
the failing driver raises. -/
def oracleC7 : Nat → Except String String
  | 0 => .ok "fill | #u | x | d"
  | 1 => .ok "click | #bad |  | d"
  | _ => .ok "verify | #p |  | check"

/-- C7: the loop never aborts — its result list concatenates over
appended step lists (so every step runs, in order, from the state the
previous steps left), there is exactly one result per step, and a
concrete three-step run whose middle executor call fails still yields
all three results with the middle one an error string. -/
theorem C7_loop_runs_all_steps :
    (∀ (d : Driver) (oracle : Nat → Except String String) (s : Store) (now : Nat)
        (p : String) (calls : Nat) (steps1 steps2 : List (String × Option String)),
      (run_loop d oracle s now p calls (steps1 ++ steps2)).2.2 =
        (run_loop d oracle s now p calls steps1).2.2 ++
          (run_loop d oracle (run_loop d oracle s now p calls steps1).1 now p
            (run_loop d oracle s now p calls steps1).2.1 steps2).2.2)
    ∧ (∀ (d : Driver) (oracle : Nat → Except String String) (s : Store) (now : Nat)
        (p : String) (calls : Nat) (steps : List (String × Option String)),
      (run_loop d oracle s now p calls steps).2.2.length = steps.length)
    ∧ (run_loop dFail oracleC7 (Store.mk [] 0) 3 "LoginPage" 0
          [("a", none), ("b", none), ("c", none)]).2.2 =
        ["Filled #u = " ++ squote ++ "x" ++ squote, "Exec error: boom", "#p: visible"] := by
  refine ⟨?_, ?_, by decide⟩
  · intro d oracle s now p calls steps1 steps2
    induction steps1 generalizing s calls with
    | nil => simp [run_loop]
    | cons hd tl ih =>
        obtain ⟨instruction, ob⟩ := hd
        simp only [List.cons_append, run_loop]
        exact congrArg (List.cons _) (ih _ _)
  · intro d oracle s now p calls steps
    induction steps generalizing s calls with
    | nil => rfl
    | cons hd tl ih =>
        obtain ⟨instruction, ob⟩ := hd
        simp only [run_loop, List.length_cons]
        rw [ih]

/-- C9: new records enter the cache only through the put in the slow
path of the resolver — after a resolution, a previously absent key can
be present only when it is the supplied (page, object) key and the
oracle replied with a line whose stripped pipe-split form has at least
two fields; conversely, under exactly those conditions on a cache miss
the key is present afterwards; and neither a read nor a search creates
records. -/
theorem C9_put_is_only_record_source :
    (∀ (s : Store) (now : Nat) (p o p2 o2 : String),
      lookupStore s p2 o2 = none →
      lookupStore (get_locator s now p o).1 p2 o2 = none)
    ∧ (∀ (s : Store) (p term : String), (get_locator_by_search s p term).1 = s)
    ∧ (∀ (d : Driver) (oracle : Except String String) (s : Store) (now : Nat)
        (p instruction : String) (object_name : Option String) (p2 o2 : String),
      lookupStore s p2 o2 = none →
      lookupStore (execute_task d oracle s now p instruction object_name).1 p2 o2 ≠ none →
      p2 = p ∧ object_name = some o2 ∧
        ∃ raw, oracle = Except.ok raw ∧ 2 ≤ (fieldsOf (stripStr raw)).length)
    ∧ (∀ (d : Driver) (raw : String) (s : Store) (now : Nat) (p instruction o : String),
      lookupStore s p o = none →
      2 ≤ (fieldsOf (stripStr raw)).length →
      lookupStore (execute_task d (Except.ok raw) s now p instruction (some o)).1 p o ≠
        none) := by
  refine ⟨get_locator_no_new_key, ?_, ?_, ?_⟩
  · intro s p term
    cases h : lookupA s.pages p <;> simp [get_locator_by_search, h]
  · intro d oracle s now p instruction object_name p2 o2 h h2
    cases object_name with
    | none =>
        cases oracle with
        | error e =>
            rw [show execute_task d (Except.error e) s now p instruction none =
                llm_resolve d (Except.error e) s now p instruction none from rfl,
              llm_resolve_error] at h2
            exact absurd h h2
        | ok raw =>
            rw [show (execute_task d (Except.ok raw) s now p instruction none).1 =
                (llm_resolve d (Except.ok raw) s now p instruction none).1 from rfl,
              llm_resolve_ok_store] at h2
            by_cases hl : 2 ≤ (fieldsOf (stripStr raw)).length
            · rw [if_pos hl] at h2
              exact absurd h h2
            · rw [if_neg hl] at h2
              exact absurd h h2
    | some o =>
        cases hc : lookupStore s p o with
        | some r =>
            rw [execute_task_hit d oracle s now p instruction o r hc] at h2
            exact absurd (get_locator_no_new_key s now p o p2 o2 h) h2
        | none =>
            rw [execute_task_miss d oracle s now p instruction o hc] at h2
            cases oracle with
            | error e =>
                rw [llm_resolve_error] at h2
                exact absurd h h2
            | ok raw =>
                rw [show (llm_resolve d (Except.ok raw) s now p instruction (some o)).1 =
                    if 2 ≤ (fieldsOf (stripStr raw)).length then
                      (add_locator s now p o ((fieldsOf (stripStr raw)).getD 1 "")
                        (lowerStr ((fieldsOf (stripStr raw)).getD 0 ""))
                        ((fieldsOf (stripStr raw)).getD 3 instruction)).1
                    else s from rfl] at h2
                by_cases hl : 2 ≤ (fieldsOf (stripStr raw)).length
                · rw [if_pos hl] at h2
                  by_cases hk : p2 = p ∧ o2 = o
                  · exact ⟨hk.1, by rw [hk.2], raw, rfl, hl⟩
                  · rw [lookupStore_add_other s now p o _ _ _ p2 o2 hk] at h2
                    exact absurd h h2
                · rw [if_neg hl] at h2
                  exact absurd h h2
  · intro d raw s now p instruction o h hl
    rw [execute_task_miss d (Except.ok raw) s now p instruction o h,
      show (llm_resolve d (Except.ok raw) s now p instruction (some o)).1 =
        if 2 ≤ (fieldsOf (stripStr raw)).length then
          (add_locator s now p o ((fieldsOf (stripStr raw)).getD 1 "")
            (lowerStr ((fieldsOf (stripStr raw)).getD 0 ""))
            ((fieldsOf (stripStr raw)).getD 3 instruction)).1
        else s from rfl, if_pos hl, lookupStore_add_self]
    simp

/-- C9 witness: a miss plus a two-field oracle reply creates the key. -/
theorem C9_put_is_only_record_source_witness :
    lookupStore (execute_task dOk (Except.ok "fill | #a | x | d") (Store.mk [] 0) 3 "P"
        "instr" (some "O")).1 "P" "O" ≠ none :=
  C9_put_is_only_record_source.2.2.2 dOk "fill | #a | x | d" (Store.mk [] 0) 3 "P"
    "instr" "O" (by decide) (by decide)

end Engine
